import Mathlib

/-!
Verification development for GrimoirePlot, a dashboard server that stores
plot payloads in a three-level hierarchy (grimoire → chapter → plot).

The persistence layer (`src/grimoireplot/models.py`) is embedded as pure
functions over an explicit `Store` of rows; the HTTP endpoints
(`src/grimoireplot/server.py`) as functions from server state to server
state plus a result; the retry decorator as a recursion producing the
trace of attempts and sleep delays; and the render path
(`src/grimoireplot/ui.py`) as a function on the list of stored plots.
Timestamps (`datetime.now`) are modelled as an explicit `now : Nat`
argument threaded into the operation that reads the clock.
-/

namespace GrimoirePlot

/-- A row of the `plot` table (models.py `Plot`): composite primary key
`(name, chapter_name, grimoire_name)`, payload `json_data`, and
`created_at` set by `default_factory=datetime.now` at insertion. -/
structure Plot where
  name : String
  chapter_name : String
  grimoire_name : String
  json_data : String
  created_at : Nat
  deriving Repr, DecidableEq

/-- Request body of `POST /add_plot` (models.py `AddPlotRequest`). -/
structure AddPlotRequest where
  grimoire_name : String
  chapter_name : String
  plot_name : String
  json_data : String
  deriving Repr, DecidableEq

/-- The relational store: the `grimoire` table (rows are just a primary-key
name), the `chapter` table (rows keyed by `(name, grimoire_name)`), and the
`plot` table. -/
structure Store where
  grimoires : List String
  chapters : List (String × String)
  plots : List Plot
  deriving Repr, DecidableEq

def Store.empty : Store := ⟨[], [], []⟩

/-- The composite primary key of a plot row, in the tuple order used by
`session.get(Plot, (plot_name, chapter_name, grimoire_name))`. -/
def plotKey (q : Plot) : String × String × String :=
  (q.name, q.chapter_name, q.grimoire_name)

def plotMatches (pk : String × String × String) (q : Plot) : Bool :=
  plotKey q == pk

/-- `session.get(Plot, pk)`: look up a plot row by primary key. -/
def getPlot (s : Store) (pk : String × String × String) : Option Plot :=
  s.plots.find? (plotMatches pk)

/-- Update the (unique, by primary-key constraint) row matching `p` in
place, as mutating the ORM object found by `session.get` does. -/
def updateFirst (p : α → Bool) (f : α → α) : List α → List α
  | [] => []
  | a :: l => if p a then f a :: l else a :: updateFirst p f l

/-- models.py `add_plot`: get-or-create the `Grimoire` row, get-or-create
the `Chapter` row, then get the `Plot` row by key — if absent insert a new
row (with `created_at = now`), if present overwrite only its `json_data`.
Returns the resulting plot record. The clock read by `datetime.now` is the
explicit argument `now`. Each `session.get` runs after the earlier
get-or-create steps, but those steps never touch the later table, so each
lookup reads `s` directly. -/
def add_plot (s : Store) (grimoire_name chapter_name plot_name json_data : String)
    (now : Nat) : Store × Plot :=
  let grimoires := if s.grimoires.contains grimoire_name then s.grimoires
                   else s.grimoires ++ [grimoire_name]
  let chapters := if s.chapters.contains (chapter_name, grimoire_name) then s.chapters
                  else s.chapters ++ [(chapter_name, grimoire_name)]
  match getPlot s (plot_name, chapter_name, grimoire_name) with
  | none =>
      let q : Plot := ⟨plot_name, chapter_name, grimoire_name, json_data, now⟩
      (⟨grimoires, chapters, s.plots ++ [q]⟩, q)
  | some q =>
      let plots := updateFirst (plotMatches (plot_name, chapter_name, grimoire_name))
        (fun r => { r with json_data := json_data }) s.plots
      (⟨grimoires, chapters, plots⟩, { q with json_data := json_data })

/-- A sequence of `add_plot` calls against one chart key, in order: each
element of `calls` is the `(json_data, now)` of one call. -/
def add_plot_calls (s : Store) (grimoire_name chapter_name plot_name : String)
    (calls : List (String × Nat)) : Store :=
  calls.foldl
    (fun t dn => (add_plot t grimoire_name chapter_name plot_name dn.1 dn.2).1) s

/-- models.py `delete_plot`: delete the one plot row with the given key;
`False` if it does not exist. -/
def delete_plot (s : Store) (grimoire_name chapter_name plot_name : String) :
    Store × Bool :=
  match getPlot s (plot_name, chapter_name, grimoire_name) with
  | none => (s, false)
  | some _ =>
      ({ s with plots :=
           s.plots.eraseP (plotMatches (plot_name, chapter_name, grimoire_name)) },
       true)

/-- models.py `delete_chapter`: delete the chapter row and, by the
`cascade_delete=True` relationship, every plot row whose foreign key points
at it; `False` if the chapter does not exist. -/
def delete_chapter (s : Store) (grimoire_name chapter_name : String) :
    Store × Bool :=
  if s.chapters.contains (chapter_name, grimoire_name) then
    ({ s with
        chapters := s.chapters.eraseP (fun ch => ch == (chapter_name, grimoire_name)),
        plots := s.plots.filter
          (fun q => !(q.chapter_name == chapter_name && q.grimoire_name == grimoire_name)) },
     true)
  else (s, false)

/-- models.py `delete_grimoire`: delete the grimoire row and, by the chained
`cascade_delete=True` relationships, all of its chapters and their plots;
`False` if the grimoire does not exist. -/
def delete_grimoire (s : Store) (grimoire_name : String) : Store × Bool :=
  if s.grimoires.contains grimoire_name then
    ({ s with
        grimoires := s.grimoires.eraseP (fun g => g == grimoire_name),
        chapters := s.chapters.filter (fun ch => !(ch.2 == grimoire_name)),
        plots := s.plots.filter (fun q => !(q.grimoire_name == grimoire_name)) },
     true)
  else (s, false)

/-- models.py `get_plots_for_chapter`: `select(Plot).where(...)`. -/
def get_plots_for_chapter (s : Store) (grimoire_name chapter_name : String) :
    List Plot :=
  s.plots.filter
    (fun q => q.chapter_name == chapter_name && q.grimoire_name == grimoire_name)

/-- The primary-key uniqueness the database enforces on the three tables:
at most one row per key. -/
def Store.WF (s : Store) : Prop :=
  s.grimoires.Nodup ∧ s.chapters.Nodup ∧
  s.plots.Pairwise (fun a b => plotKey a ≠ plotKey b)

instance (s : Store) : Decidable s.WF := by
  unfold Store.WF; infer_instance

/-! ## Server layer (server.py) -/

/-- server.py `verify_secret`: reads the `grimoire-secret` header; raises
`HTTPException(401)` when it is absent and `HTTPException(403)` when it
differs from the configured `_GRIMOIRE_SECRET`. `some code` models the
raised exception, `none` means the check passed. -/
def verify_secret (cfgSecret : String) (header : Option String) : Option Nat :=
  match header with
  | none => some 401
  | some secret => if secret != cfgSecret then some 403 else none

/-- The UI refresh the endpoint triggers: either the targeted refresh of one
chapter's plot grid, or `dashboard_ui.refresh()`. -/
inductive RefreshKind where
  | chapterOnly (grimoire_name chapter_name : String)
  | fullDashboard
  deriving Repr, DecidableEq

/-- Server-side state an endpoint can read or write: the database plus the
`_chapter_plot_refreshables` registry of ui.py (the set of chapter keys that
currently have a live refreshable plot grid). -/
structure ServerState where
  store : Store
  registry : List (String × String)
  deriving Repr, DecidableEq

/-- ui.py `refresh_chapter_plots`: refresh the one chapter grid if its key
is registered and report whether it was found. -/
def refresh_chapter_plots (registry : List (String × String))
    (grimoire_name chapter_name : String) : Bool :=
  registry.contains (grimoire_name, chapter_name)

/-- server.py `add_plot_endpoint`: verify the secret, upsert via `add_plot`,
then try the targeted chapter refresh and fall back to a full dashboard
refresh when the chapter key is not registered. Returns the new state and
either the raised HTTP status code or the refresh performed together with
the `plot_name` echoed in the success body. -/
def add_plot_endpoint (cfgSecret : String) (header : Option String)
    (req : AddPlotRequest) (st : ServerState) (now : Nat) :
    ServerState × Except Nat (RefreshKind × String) :=
  match verify_secret cfgSecret header with
  | some code => (st, .error code)
  | none =>
      let (store, plot) := add_plot st.store req.grimoire_name req.chapter_name
        req.plot_name req.json_data now
      let refresh := if refresh_chapter_plots st.registry req.grimoire_name
          req.chapter_name then
        RefreshKind.chapterOnly req.grimoire_name req.chapter_name
      else RefreshKind.fullDashboard
      ({ st with store := store }, .ok (refresh, plot.name))

/-- server.py `delete_plot_endpoint`: verify the secret, delete, 404 when
`delete_plot` reports the plot missing, else full dashboard refresh. -/
def delete_plot_endpoint (cfgSecret : String) (header : Option String)
    (grimoire_name chapter_name plot_name : String) (st : ServerState) :
    ServerState × Except Nat (RefreshKind × String) :=
  match verify_secret cfgSecret header with
  | some code => (st, .error code)
  | none =>
      let (store, ok) := delete_plot st.store grimoire_name chapter_name plot_name
      if ok then ({ st with store := store }, .ok (.fullDashboard, plot_name))
      else (st, .error 404)

/-- server.py `delete_chapter_endpoint`. -/
def delete_chapter_endpoint (cfgSecret : String) (header : Option String)
    (grimoire_name chapter_name : String) (st : ServerState) :
    ServerState × Except Nat (RefreshKind × String) :=
  match verify_secret cfgSecret header with
  | some code => (st, .error code)
  | none =>
      let (store, ok) := delete_chapter st.store grimoire_name chapter_name
      if ok then ({ st with store := store }, .ok (.fullDashboard, chapter_name))
      else (st, .error 404)

/-- server.py `delete_grimoire_endpoint`. -/
def delete_grimoire_endpoint (cfgSecret : String) (header : Option String)
    (grimoire_name : String) (st : ServerState) :
    ServerState × Except Nat (RefreshKind × String) :=
  match verify_secret cfgSecret header with
  | some code => (st, .error code)
  | none =>
      let (store, ok) := delete_grimoire st.store grimoire_name
      if ok then ({ st with store := store }, .ok (.fullDashboard, grimoire_name))
      else (st, .error 404)

/-! ## Retry decorator (server.py `retry_on_db_error`) -/

/-- What one invocation of the wrapped function does: return a value, raise
an `HTTPException` with a status code, or raise some other exception (a
database error). -/
inductive CallResult (α : Type) where
  | ok (value : α)
  | httpExc (code : Nat)
  | exc
  deriving Repr, DecidableEq

/-- The loop body of `retry_on_db_error`'s wrapper, from the given attempt
number on. `f attempt` is the wrapped call's behaviour on that attempt.
Returns the last attempt number reached, the list of delays slept (each
`base_delay * 2 ^ (attempt - 1)`), and the final outcome: an `ok` value is
returned, an `httpExc` is re-raised at once, and `exc` is re-raised only
once `attempt` has reached `max_retries`. `fuel` bounds the structural
recursion; `retry_on_db_error` supplies `fuel = max_retries`, which covers
every iteration of the Python `for` loop. -/
def retryGo (f : Nat → CallResult α) (base_delay : ℚ) (max_retries : Nat) :
    Nat → Nat → Nat × List ℚ × CallResult α
  | attempt, 0 => (attempt, [], .exc)
  | attempt, fuel + 1 =>
      match f attempt with
      | .ok v => (attempt, [], .ok v)
      | .httpExc code => (attempt, [], .httpExc code)
      | .exc =>
          if attempt < max_retries then
            let r := retryGo f base_delay max_retries (attempt + 1) fuel
            (r.1, base_delay * 2 ^ (attempt - 1) :: r.2.1, r.2.2)
          else (attempt, [], .exc)

/-- server.py `retry_on_db_error` applied to a wrapped function: run the
attempt loop `for attempt in range(1, max_retries + 1)`. When
`max_retries = 0` the loop body never runs and the wrapper returns `none`
(Python's implicit `None`). -/
def retry_on_db_error (f : Nat → CallResult α) (max_retries : Nat)
    (base_delay : ℚ) : Option (Nat × List ℚ × CallResult α) :=
  if max_retries = 0 then none
  else some (retryGo f base_delay max_retries 1 max_retries)

/-! ## Render path (ui.py) -/

/-- What `render_plot` puts on the page for one stored plot: a plotly chart
built from the parsed payload, or the red error label when `json.loads`
raises `JSONDecodeError`. -/
inductive RenderedPlot where
  | chart (json_data name : String)
  | invalidData (label : String)
  deriving Repr, DecidableEq

/-- ui.py `render_plot`: `json.loads(plot.json_data)` inside `try`; on
success a plotly chart is created, on `JSONDecodeError` the label
`"Invalid plot data: <name>"` is rendered instead. The external JSON parser
is the parameter `parseOk`: `parseOk d = true` when `json.loads d`
succeeds. -/
def render_plot (parseOk : String → Bool) (plot : Plot) : RenderedPlot :=
  if parseOk plot.json_data then .chart plot.json_data plot.name
  else .invalidData ("Invalid plot data: " ++ plot.name)

/-- ui.py `chapter_plots_ui` for one chapter: render each stored plot of the
chapter in order. -/
def chapter_plots_ui (parseOk : String → Bool) (s : Store)
    (grimoire_name chapter_name : String) : List RenderedPlot :=
  (get_plots_for_chapter s grimoire_name chapter_name).map (render_plot parseOk)

/-- A small populated store (two grimoires, two chapters, two plots) used to
instantiate the theorems at concrete inputs. -/
def sampleStore : Store :=
  ⟨["g", "h"], [("c", "g"), ("c", "h")],
   [⟨"p", "c", "g", "d", 0⟩, ⟨"q", "c", "h", "e", 1⟩]⟩

/-! ## Helper lemmas -/

section ListHelpers

variable {α : Type _}

lemma updateFirst_length (p : α → Bool) (f : α → α) (l : List α) :
    (updateFirst p f l).length = l.length := by
  induction l with
  | nil => rfl
  | cons a l ih =>
      by_cases h : p a <;> simp [updateFirst, h, ih]

lemma find?_updateFirst (p : α → Bool) (f : α → α) (l : List α)
    (hf : ∀ a, p a = true → p (f a) = true) :
    (updateFirst p f l).find? p = (l.find? p).map f := by
  induction l with
  | nil => rfl
  | cons a l ih =>
      by_cases h : p a
      · simp [updateFirst, h, List.find?_cons_of_pos, hf a h]
      · simp [updateFirst, h, List.find?_cons_of_neg, ih]

lemma countP_updateFirst (p q : α → Bool) (f : α → α) (l : List α)
    (hf : ∀ a, q (f a) = q a) :
    (updateFirst p f l).countP q = l.countP q := by
  induction l with
  | nil => rfl
  | cons a l ih =>
      by_cases h : p a
      · simp [updateFirst, h, List.countP_cons, hf]
      · simp [updateFirst, h, List.countP_cons, ih]

lemma eraseP_eq_filter_of_countP_le_one (p : α → Bool) (l : List α)
    (h : l.countP p ≤ 1) : l.eraseP p = l.filter (fun a => !(p a)) := by
  induction l with
  | nil => rfl
  | cons a l ih =>
      by_cases ha : p a
      · have hl : l.countP p = 0 := by
          have := List.countP_cons_of_pos (p := p) (l := l) ha
          omega
        have hall : ∀ x ∈ l, ¬ p x = true := List.countP_eq_zero.mp hl
        have : l.filter (fun a => !(p a)) = l :=
          List.filter_eq_self.mpr (by simpa using hall)
        simp [List.eraseP_cons_of_pos ha, List.filter_cons, ha, this]
      · have hl : l.countP p ≤ 1 := by
          have := List.countP_cons (p := p) (a := a) (l := l)
          omega
        simp [List.eraseP_cons_of_neg ha, List.filter_cons, ha, ih hl]

lemma countP_le_one_of_pairwise_ne {β : Type _} [BEq β] [LawfulBEq β]
    (key : α → β) (l : List α)
    (h : l.Pairwise (fun a b => key a ≠ key b)) (k : β) :
    l.countP (fun a => key a == k) ≤ 1 := by
  induction l with
  | nil => simp
  | cons a l ih =>
      rcases List.pairwise_cons.mp h with ⟨ha, hl⟩
      by_cases hk : key a = k
      · have hz : l.countP (fun a => key a == k) = 0 := by
          refine List.countP_eq_zero.mpr ?_
          intro x hx
          simp only [beq_iff_eq]
          exact fun hxk => ha x hx (by rw [hk, hxk])
        simp [List.countP_cons, hk, hz]
      · rw [List.countP_cons_of_neg _ _ (by simp [hk])]
        exact ih hl

end ListHelpers

/-! ## Structure of `add_plot` results -/

lemma plotMatches_iff (pk : String × String × String) (q : Plot) :
    plotMatches pk q = true ↔ plotKey q = pk := by
  simp [plotMatches]

lemma plotMatches_self (p c g d : String) (n : Nat) :
    plotMatches (p, c, g) ⟨p, c, g, d, n⟩ = true := by
  simp [plotMatches, plotKey]

lemma plotMatches_set_json (pk : String × String × String) (q : Plot) (d : String) :
    plotMatches pk { q with json_data := d } = plotMatches pk q := rfl

lemma find?_plotMatches_fields {l : List Plot} {p c g : String} {q : Plot}
    (h : l.find? (plotMatches (p, c, g)) = some q) :
    q.name = p ∧ q.chapter_name = c ∧ q.grimoire_name = g := by
  have := List.find?_some h
  rw [plotMatches_iff] at this
  unfold plotKey at this
  exact ⟨congrArg (·.1) this, congrArg (·.2.1) this, congrArg (·.2.2) this⟩

lemma add_plot_grimoires (s : Store) (g c p d : String) (n : Nat) :
    (add_plot s g c p d n).1.grimoires =
      if s.grimoires.contains g then s.grimoires else s.grimoires ++ [g] := by
  unfold add_plot
  cases h : getPlot s (p, c, g) <;> rfl

lemma add_plot_chapters (s : Store) (g c p d : String) (n : Nat) :
    (add_plot s g c p d n).1.chapters =
      if s.chapters.contains (c, g) then s.chapters else s.chapters ++ [(c, g)] := by
  unfold add_plot
  cases h : getPlot s (p, c, g) <;> rfl

lemma add_plot_fresh (s : Store) (g c p d : String) (n : Nat)
    (h : s.plots.find? (plotMatches (p, c, g)) = none) :
    (add_plot s g c p d n).1.plots = s.plots ++ [⟨p, c, g, d, n⟩] ∧
    (add_plot s g c p d n).2 = ⟨p, c, g, d, n⟩ := by
  unfold add_plot getPlot
  rw [h]
  exact ⟨rfl, rfl⟩

lemma add_plot_found (s : Store) (g c p d : String) (n : Nat) (q : Plot)
    (h : s.plots.find? (plotMatches (p, c, g)) = some q) :
    (add_plot s g c p d n).1.plots =
      updateFirst (plotMatches (p, c, g)) (fun r => { r with json_data := d })
        s.plots ∧
    (add_plot s g c p d n).2 = { q with json_data := d } := by
  unfold add_plot getPlot
  rw [h]
  exact ⟨rfl, rfl⟩

lemma getPlot_add_plot (s : Store) (g c p d : String) (n : Nat) :
    getPlot (add_plot s g c p d n).1 (p, c, g) = some (add_plot s g c p d n).2 := by
  cases h : s.plots.find? (plotMatches (p, c, g)) with
  | none =>
      obtain ⟨hp, hr⟩ := add_plot_fresh s g c p d n h
      rw [getPlot, hp, hr, List.find?_append, h]
      simp [List.find?_singleton, plotMatches_self]
  | some q =>
      obtain ⟨hp, hr⟩ := add_plot_found s g c p d n q h
      rw [getPlot, hp, hr,
        find?_updateFirst _ _ _ (fun a ha => by rwa [plotMatches_set_json]), h]
      rfl

lemma add_plot_snd_shape (s : Store) (g c p d : String) (n : Nat) :
    ∃ t : Nat, (add_plot s g c p d n).2 = ⟨p, c, g, d, t⟩ := by
  cases h : s.plots.find? (plotMatches (p, c, g)) with
  | none => exact ⟨n, (add_plot_fresh s g c p d n h).2⟩
  | some q =>
      obtain ⟨h1, h2, h3⟩ := find?_plotMatches_fields h
      refine ⟨q.created_at, ?_⟩
      rw [(add_plot_found s g c p d n q h).2]
      cases q
      simp_all

lemma getPlot_add_plot_payload (s : Store) (g c p d : String) (n : Nat) :
    ∃ t : Nat, getPlot (add_plot s g c p d n).1 (p, c, g) = some ⟨p, c, g, d, t⟩ := by
  obtain ⟨t, ht⟩ := add_plot_snd_shape s g c p d n
  exact ⟨t, by rw [getPlot_add_plot, ht]⟩

lemma countP_add_plot (s : Store) (g c p d : String) (n : Nat)
    (hc : s.plots.countP (plotMatches (p, c, g)) ≤ 1) :
    (add_plot s g c p d n).1.plots.countP (plotMatches (p, c, g)) = 1 := by
  cases h : s.plots.find? (plotMatches (p, c, g)) with
  | none =>
      have h0 : s.plots.countP (plotMatches (p, c, g)) = 0 :=
        List.countP_eq_zero.mpr (fun a ha => by
          simpa using List.find?_eq_none.mp h a ha)
      rw [(add_plot_fresh s g c p d n h).1, List.countP_append, h0]
      simp [plotMatches_self]
  | some q =>
      have hpos : 0 < s.plots.countP (plotMatches (p, c, g)) :=
        List.countP_pos_iff.mpr ⟨q, List.mem_of_find?_eq_some h, List.find?_some h⟩
      rw [(add_plot_found s g c p d n q h).1,
        countP_updateFirst _ _ _ _ (fun a => plotMatches_set_json _ a d)]
      omega

lemma contains_append_self {α : Type _} [BEq α] [LawfulBEq α] (l : List α) (a : α) :
    (l ++ [a]).contains a = true := by
  simp [List.contains_iff_exists_mem_beq]

lemma add_plot_calls_spec (g c p : String) :
    ∀ calls : List (String × Nat), ∀ s : Store,
      s.plots.countP (plotMatches (p, c, g)) ≤ 1 → calls ≠ [] →
      (add_plot_calls s g c p calls).plots.countP (plotMatches (p, c, g)) = 1 ∧
      (getPlot (add_plot_calls s g c p calls) (p, c, g)).map Plot.json_data =
        calls.getLast?.map Prod.fst := by
  intro calls
  induction calls with
  | nil => exact fun s _ h => absurd rfl h
  | cons dn rest ih =>
      intro s hc _
      have hstep : add_plot_calls s g c p (dn :: rest) =
          add_plot_calls (add_plot s g c p dn.1 dn.2).1 g c p rest := rfl
      rcases eq_or_ne rest [] with hr | hr
      · subst hr
        obtain ⟨t, ht⟩ := getPlot_add_plot_payload s g c p dn.1 dn.2
        refine ⟨countP_add_plot s g c p dn.1 dn.2 hc, ?_⟩
        rw [hstep]
        simp [add_plot_calls, ht]
      · have h1 := countP_add_plot s g c p dn.1 dn.2 hc
        obtain ⟨r, rs, hrr⟩ := List.exists_cons_of_ne_nil hr
        have := ih (add_plot s g c p dn.1 dn.2).1 (le_of_eq h1) hr
        rw [hstep]
        subst hrr
        simpa using this

/-! ## Structure of the delete operations -/

lemma plots_countP_le_one (s : Store) (hWF : s.WF)
    (pk : String × String × String) :
    s.plots.countP (plotMatches pk) ≤ 1 :=
  countP_le_one_of_pairwise_ne plotKey s.plots hWF.2.2 pk

lemma eraseP_beq_eq_filter {α : Type _} [BEq α] [LawfulBEq α] (l : List α)
    (h : l.Nodup) (a : α) :
    l.eraseP (fun x => x == a) = l.filter (fun x => !(x == a)) :=
  eraseP_eq_filter_of_countP_le_one _ _ (countP_le_one_of_pairwise_ne id l h a)

lemma contains_filter_bne_self {α : Type _} [BEq α] [LawfulBEq α] (l : List α)
    (a : α) :
    (l.filter (fun x => !(x == a))).contains a = false := by
  rw [Bool.eq_false_iff]
  intro hcon
  obtain ⟨a', ha', hbeq⟩ := List.contains_iff_exists_mem_beq.mp hcon
  rw [List.mem_filter] at ha'
  cases eq_of_beq hbeq
  simp at ha'

lemma delete_plot_found (s : Store) (g c p : String)
    (h : getPlot s (p, c, g) ≠ none) :
    delete_plot s g c p =
      ({ s with plots := s.plots.eraseP (plotMatches (p, c, g)) }, true) := by
  unfold delete_plot
  cases hq : getPlot s (p, c, g) with
  | none => exact absurd hq h
  | some q => rfl

lemma delete_plot_plots_filter (s : Store) (hWF : s.WF) (g c p : String)
    (h : getPlot s (p, c, g) ≠ none) :
    (delete_plot s g c p).1.plots =
      s.plots.filter (fun q => !(plotMatches (p, c, g) q)) := by
  rw [delete_plot_found s g c p h]
  exact eraseP_eq_filter_of_countP_le_one _ _ (plots_countP_le_one s hWF (p, c, g))

/-! ## Claims -/

/-- C1, counterexample: push "d1" at time 0 and "d2" at time 1 under the
same key. The stored row's `created_at` is still 0, not the second call's
time 1: `add_plot` overwrites only `json_data` and does not refresh the
creation timestamp, so the claim as stated fails. -/
theorem c1_counterexample_timestamp_not_refreshed :
    (getPlot (add_plot (add_plot Store.empty "g" "c" "p" "d1" 0).1
        "g" "c" "p" "d2" 1).1 ("p", "c", "g")).map Plot.created_at = some 0 ∧
    ¬ (getPlot (add_plot (add_plot Store.empty "g" "c" "p" "d1" 0).1
        "g" "c" "p" "d2" 1).1 ("p", "c", "g")).map Plot.created_at = some 1 := by
  constructor <;> decide

/-- C1 (amended): after `upsert_chart` has stored a chart under key
(g, c, p) with payload d1, calling again with the same key and payload d2
overwrites that chart's payload to d2 in place and keeps its original
creation timestamp unchanged, rather than inserting a new row. -/
theorem c1_upsert_overwrites_payload_in_place (s : Store)
    (g c p d1 d2 : String) (n1 n2 : Nat) :
    ∃ t : Nat,
      getPlot (add_plot s g c p d1 n1).1 (p, c, g) = some ⟨p, c, g, d1, t⟩ ∧
      getPlot (add_plot (add_plot s g c p d1 n1).1 g c p d2 n2).1 (p, c, g) =
        some ⟨p, c, g, d2, t⟩ ∧
      (add_plot (add_plot s g c p d1 n1).1 g c p d2 n2).1.plots.length =
        (add_plot s g c p d1 n1).1.plots.length := by
  obtain ⟨t, ht⟩ := getPlot_add_plot_payload s g c p d1 n1
  refine ⟨t, ht, ?_, ?_⟩
  · rw [getPlot_add_plot,
      (add_plot_found (add_plot s g c p d1 n1).1 g c p d2 n2 ⟨p, c, g, d1, t⟩ ht).2]
  · rw [(add_plot_found (add_plot s g c p d1 n1).1 g c p d2 n2 ⟨p, c, g, d1, t⟩ ht).1,
      updateFirst_length]

/-- C2: `upsert_chart` is idempotent by key — after any sequence of two or
more calls with key (g, c, p) against a store whose `plot` table satisfies
the primary-key constraint for that key, exactly one chart row matches
(g, c, p) and its payload is the payload of the last call. -/
theorem c2_upsert_idempotent_by_key (s : Store) (g c p : String)
    (calls : List (String × Nat))
    (hpk : s.plots.countP (plotMatches (p, c, g)) ≤ 1)
    (hlen : 2 ≤ calls.length) :
    (add_plot_calls s g c p calls).plots.countP (plotMatches (p, c, g)) = 1 ∧
    (getPlot (add_plot_calls s g c p calls) (p, c, g)).map Plot.json_data =
      calls.getLast?.map Prod.fst := by
  refine add_plot_calls_spec g c p calls s hpk fun h => ?_
  subst h
  simp at hlen

/-- Witness for C2 at a concrete input: two pushes of "d1" then "d2" on the
empty store leave one matching row whose payload is "d2". -/
theorem c2_upsert_idempotent_by_key_witness :
    (add_plot_calls Store.empty "g" "c" "p" [("d1", 0), ("d2", 1)]).plots.countP
        (plotMatches ("p", "c", "g")) = 1 ∧
    (getPlot (add_plot_calls Store.empty "g" "c" "p" [("d1", 0), ("d2", 1)])
        ("p", "c", "g")).map Plot.json_data = some "d2" := by
  simpa using c2_upsert_idempotent_by_key Store.empty "g" "c" "p"
    [("d1", 0), ("d2", 1)] (by decide) (by decide)

/-- C3: calling `upsert_chart` with a key (g, c, p) that is fresh in the
store raises no error (the operation is total), creates the Collection row
g and the Section row (c, g) if absent, inserts the Chart row with the
given payload and timestamp, and returns the resulting Chart record. -/
theorem c3_upsert_fresh_key_creates_all_rows (s : Store) (g c p d : String)
    (n : Nat) (hfresh : getPlot s (p, c, g) = none) :
    (add_plot s g c p d n).1.grimoires.contains g = true ∧
    (add_plot s g c p d n).1.chapters.contains (c, g) = true ∧
    getPlot (add_plot s g c p d n).1 (p, c, g) = some ⟨p, c, g, d, n⟩ ∧
    (add_plot s g c p d n).2 = ⟨p, c, g, d, n⟩ := by
  obtain ⟨hp, hr⟩ := add_plot_fresh s g c p d n hfresh
  refine ⟨?_, ?_, ?_, hr⟩
  · rw [add_plot_grimoires]
    by_cases hg : s.grimoires.contains g
    · rw [if_pos hg]; exact hg
    · rw [if_neg hg]; exact contains_append_self s.grimoires g
  · rw [add_plot_chapters]
    by_cases hch : s.chapters.contains (c, g)
    · rw [if_pos hch]; exact hch
    · rw [if_neg hch]; exact contains_append_self s.chapters (c, g)
  · rw [getPlot_add_plot, hr]

/-- Witness for C3 at a concrete input: the first push on the empty store
creates the grimoire, chapter and plot rows. -/
theorem c3_upsert_fresh_key_creates_all_rows_witness :
    (add_plot Store.empty "g" "c" "p" "d" 7).1.grimoires.contains "g" = true ∧
    (add_plot Store.empty "g" "c" "p" "d" 7).1.chapters.contains ("c", "g") = true ∧
    getPlot (add_plot Store.empty "g" "c" "p" "d" 7).1 ("p", "c", "g") =
      some ⟨"p", "c", "g", "d", 7⟩ ∧
    (add_plot Store.empty "g" "c" "p" "d" 7).2 = ⟨"p", "c", "g", "d", 7⟩ :=
  c3_upsert_fresh_key_creates_all_rows Store.empty "g" "c" "p" "d" 7 (by decide)

/-- C10, counterexample: one public `upsert_chart` call whose three name
arguments are all the empty string succeeds and stores rows whose name
components are empty — no validation rejects empty names, so a reachable
store state does contain empty-string names. -/
theorem c10_counterexample_empty_names_stored :
    (add_plot Store.empty "" "" "" "d" 0).1.grimoires = [""] ∧
    (add_plot Store.empty "" "" "" "d" 0).1.chapters = [("", "")] ∧
    (add_plot Store.empty "" "" "" "d" 0).1.plots.map Plot.name = [""] := by
  decide

/-- C10 (amended): names reaching the store through the public write
operation are stored verbatim with no non-emptiness validation — for every
string inputs, including empty ones, `upsert_chart` stores rows carrying
exactly the given names. -/
theorem c10_names_stored_verbatim_without_validation (s : Store)
    (g c p d : String) (n : Nat) :
    (add_plot s g c p d n).1.grimoires.contains g = true ∧
    (add_plot s g c p d n).1.chapters.contains (c, g) = true ∧
    ∃ q : Plot, getPlot (add_plot s g c p d n).1 (p, c, g) = some q ∧
      q.name = p ∧ q.chapter_name = c ∧ q.grimoire_name = g ∧ q.json_data = d := by
  obtain ⟨t, ht⟩ := getPlot_add_plot_payload s g c p d n
  refine ⟨?_, ?_, ⟨p, c, g, d, t⟩, ht, rfl, rfl, rfl, rfl⟩
  · rw [add_plot_grimoires]
    by_cases hg : s.grimoires.contains g
    · rw [if_pos hg]; exact hg
    · rw [if_neg hg]; exact contains_append_self s.grimoires g
  · rw [add_plot_chapters]
    by_cases hch : s.chapters.contains (c, g)
    · rw [if_pos hch]; exact hch
    · rw [if_neg hch]; exact contains_append_self s.chapters (c, g)

/-- C4: on a store satisfying the primary-key constraints, delete scope is
exact. `delete_chart` removes exactly the one chart with the given key and
touches no other table; `delete_section` removes exactly that section row
and the charts under it; `delete_collection` removes exactly that
collection, its sections and their charts — each stated as a `filter` that
keeps every row outside the deleted scope unchanged. -/
theorem c4_delete_scope_exact (s : Store) (hWF : s.WF) :
    (∀ g c p, getPlot s (p, c, g) ≠ none →
      (delete_plot s g c p).2 = true ∧
      (delete_plot s g c p).1.grimoires = s.grimoires ∧
      (delete_plot s g c p).1.chapters = s.chapters ∧
      (delete_plot s g c p).1.plots =
        s.plots.filter (fun q => !(plotMatches (p, c, g) q))) ∧
    (∀ g c, s.chapters.contains (c, g) = true →
      (delete_chapter s g c).2 = true ∧
      (delete_chapter s g c).1.grimoires = s.grimoires ∧
      (delete_chapter s g c).1.chapters =
        s.chapters.filter (fun ch => !(ch == (c, g))) ∧
      (delete_chapter s g c).1.plots =
        s.plots.filter (fun q => !(q.chapter_name == c && q.grimoire_name == g))) ∧
    (∀ g, s.grimoires.contains g = true →
      (delete_grimoire s g).2 = true ∧
      (delete_grimoire s g).1.grimoires =
        s.grimoires.filter (fun x => !(x == g)) ∧
      (delete_grimoire s g).1.chapters =
        s.chapters.filter (fun ch => !(ch.2 == g)) ∧
      (delete_grimoire s g).1.plots =
        s.plots.filter (fun q => !(q.grimoire_name == g))) := by
  refine ⟨fun g c p h => ?_, fun g c h => ?_, fun g h => ?_⟩
  · rw [delete_plot_found s g c p h]
    exact ⟨rfl, rfl, rfl,
      eraseP_eq_filter_of_countP_le_one _ _ (plots_countP_le_one s hWF (p, c, g))⟩
  · rw [delete_chapter, if_pos h]
    exact ⟨rfl, rfl, eraseP_beq_eq_filter s.chapters hWF.2.1 (c, g), rfl⟩
  · rw [delete_grimoire, if_pos h]
    exact ⟨rfl, eraseP_beq_eq_filter s.grimoires hWF.1 g, rfl, rfl⟩

/-- Witness for C4 at concrete inputs, one per delete operation against the
sample store. -/
theorem c4_delete_scope_exact_witness :
    ((delete_plot sampleStore "g" "c" "p").2 = true ∧
      (delete_plot sampleStore "g" "c" "p").1.grimoires = sampleStore.grimoires ∧
      (delete_plot sampleStore "g" "c" "p").1.chapters = sampleStore.chapters ∧
      (delete_plot sampleStore "g" "c" "p").1.plots =
        sampleStore.plots.filter (fun q => !(plotMatches ("p", "c", "g") q))) ∧
    ((delete_chapter sampleStore "g" "c").2 = true ∧
      (delete_chapter sampleStore "g" "c").1.grimoires = sampleStore.grimoires ∧
      (delete_chapter sampleStore "g" "c").1.chapters =
        sampleStore.chapters.filter (fun ch => !(ch == ("c", "g"))) ∧
      (delete_chapter sampleStore "g" "c").1.plots =
        sampleStore.plots.filter
          (fun q => !(q.chapter_name == "c" && q.grimoire_name == "g"))) ∧
    ((delete_grimoire sampleStore "g").2 = true ∧
      (delete_grimoire sampleStore "g").1.grimoires =
        sampleStore.grimoires.filter (fun x => !(x == "g")) ∧
      (delete_grimoire sampleStore "g").1.chapters =
        sampleStore.chapters.filter (fun ch => !(ch.2 == "g")) ∧
      (delete_grimoire sampleStore "g").1.plots =
        sampleStore.plots.filter (fun q => !(q.grimoire_name == "g"))) :=
  ⟨(c4_delete_scope_exact sampleStore (by decide)).1 "g" "c" "p" (by decide),
   (c4_delete_scope_exact sampleStore (by decide)).2.1 "g" "c" (by decide),
   (c4_delete_scope_exact sampleStore (by decide)).2.2 "g" (by decide)⟩

/-- C5: every authenticated endpoint rejects a request with no
`grimoire-secret` header with 401 and a request whose header differs from
the configured secret with 403, and in either case returns the server state
unchanged — the request never reaches storage. -/
theorem c5_auth_rejected_before_storage (cfg h : String) (req : AddPlotRequest)
    (st : ServerState) (now : Nat) (g c p : String) :
    (add_plot_endpoint cfg none req st now = (st, .error 401)) ∧
    (h ≠ cfg → add_plot_endpoint cfg (some h) req st now = (st, .error 403)) ∧
    (delete_plot_endpoint cfg none g c p st = (st, .error 401)) ∧
    (h ≠ cfg → delete_plot_endpoint cfg (some h) g c p st = (st, .error 403)) ∧
    (delete_chapter_endpoint cfg none g c st = (st, .error 401)) ∧
    (h ≠ cfg → delete_chapter_endpoint cfg (some h) g c st = (st, .error 403)) ∧
    (delete_grimoire_endpoint cfg none g st = (st, .error 401)) ∧
    (h ≠ cfg → delete_grimoire_endpoint cfg (some h) g st = (st, .error 403)) := by
  refine ⟨rfl, fun hne => ?_, rfl, fun hne => ?_, rfl, fun hne => ?_, rfl,
    fun hne => ?_⟩ <;>
  · have hb : (h != cfg) = true := bne_iff_ne.mpr hne
    simp [add_plot_endpoint, delete_plot_endpoint, delete_chapter_endpoint,
      delete_grimoire_endpoint, verify_secret, hb]

/-- Witness for C5 at concrete inputs: secret "s", wrong header "w". -/
theorem c5_auth_rejected_before_storage_witness :
    (add_plot_endpoint "s" none ⟨"g", "c", "p", "d"⟩ ⟨Store.empty, []⟩ 0 =
      (⟨Store.empty, []⟩, .error 401)) ∧
    (add_plot_endpoint "s" (some "w") ⟨"g", "c", "p", "d"⟩ ⟨Store.empty, []⟩ 0 =
      (⟨Store.empty, []⟩, .error 403)) ∧
    (delete_grimoire_endpoint "s" none "g" ⟨Store.empty, []⟩ =
      (⟨Store.empty, []⟩, .error 401)) ∧
    (delete_grimoire_endpoint "s" (some "w") "g" ⟨Store.empty, []⟩ =
      (⟨Store.empty, []⟩, .error 403)) := by
  have h := c5_auth_rejected_before_storage "s" "w" ⟨"g", "c", "p", "d"⟩
    ⟨Store.empty, []⟩ 0 "g" "c" "p"
  exact ⟨h.1, h.2.1 (by decide), h.2.2.2.2.2.2.1, h.2.2.2.2.2.2.2 (by decide)⟩

/-- C6: each delete operation returns false and leaves the store unchanged
when its target key does not exist, and the corresponding endpoint maps
that to a 404 response with the server state unchanged; when the target
exists the operation returns true and the target is gone afterwards. -/
theorem c6_delete_missing_is_not_found (s : Store) (st : ServerState)
    (cfg g c p : String) :
    (getPlot s (p, c, g) = none → delete_plot s g c p = (s, false)) ∧
    (s.chapters.contains (c, g) = false → delete_chapter s g c = (s, false)) ∧
    (s.grimoires.contains g = false → delete_grimoire s g = (s, false)) ∧
    (getPlot st.store (p, c, g) = none →
      delete_plot_endpoint cfg (some cfg) g c p st = (st, .error 404)) ∧
    (st.store.chapters.contains (c, g) = false →
      delete_chapter_endpoint cfg (some cfg) g c st = (st, .error 404)) ∧
    (st.store.grimoires.contains g = false →
      delete_grimoire_endpoint cfg (some cfg) g st = (st, .error 404)) ∧
    (s.WF → getPlot s (p, c, g) ≠ none →
      (delete_plot s g c p).2 = true ∧
      getPlot (delete_plot s g c p).1 (p, c, g) = none) ∧
    (s.WF → s.chapters.contains (c, g) = true →
      (delete_chapter s g c).2 = true ∧
      (delete_chapter s g c).1.chapters.contains (c, g) = false) ∧
    (s.WF → s.grimoires.contains g = true →
      (delete_grimoire s g).2 = true ∧
      (delete_grimoire s g).1.grimoires.contains g = false) := by
  refine ⟨fun h => ?_, fun h => ?_, fun h => ?_, fun h => ?_, fun h => ?_,
    fun h => ?_, fun hWF h => ?_, fun hWF h => ?_, fun hWF h => ?_⟩
  · unfold delete_plot; rw [h]
  · unfold delete_chapter; rw [h]; rfl
  · unfold delete_grimoire; rw [h]; rfl
  · have hd : delete_plot st.store g c p = (st.store, false) := by
      unfold delete_plot; rw [h]
    simp [delete_plot_endpoint, verify_secret, hd]
  · have hd : delete_chapter st.store g c = (st.store, false) := by
      unfold delete_chapter; rw [h]; rfl
    simp [delete_chapter_endpoint, verify_secret, hd]
  · have hd : delete_grimoire st.store g = (st.store, false) := by
      unfold delete_grimoire; rw [h]; rfl
    simp [delete_grimoire_endpoint, verify_secret, hd]
  · refine ⟨by rw [delete_plot_found s g c p h], ?_⟩
    rw [getPlot, delete_plot_plots_filter s hWF g c p h]
    exact List.find?_eq_none.mpr fun q hq => by
      rw [List.mem_filter] at hq
      simpa using hq.2
  · rw [delete_chapter, if_pos h]
    exact ⟨rfl, by
      show (s.chapters.eraseP (fun ch => ch == (c, g))).contains (c, g) = false
      rw [eraseP_beq_eq_filter s.chapters hWF.2.1 (c, g)]
      exact contains_filter_bne_self s.chapters (c, g)⟩
  · rw [delete_grimoire, if_pos h]
    exact ⟨rfl, by
      show (s.grimoires.eraseP (fun x => x == g)).contains g = false
      rw [eraseP_beq_eq_filter s.grimoires hWF.1 g]
      exact contains_filter_bne_self s.grimoires g⟩

/-- Witness for C6 at concrete inputs: missing targets on the empty store
map to false / 404; existing targets on the sample store are deleted. -/
theorem c6_delete_missing_is_not_found_witness :
    (delete_plot Store.empty "g" "c" "p" = (Store.empty, false)) ∧
    (delete_grimoire_endpoint "s" (some "s") "g" ⟨Store.empty, []⟩ =
      (⟨Store.empty, []⟩, .error 404)) ∧
    ((delete_grimoire sampleStore "g").2 = true ∧
      (delete_grimoire sampleStore "g").1.grimoires.contains "g" = false) := by
  refine ⟨?_, ?_, ?_⟩
  · exact (c6_delete_missing_is_not_found Store.empty ⟨Store.empty, []⟩
      "s" "g" "c" "p").1 (by decide)
  · exact (c6_delete_missing_is_not_found Store.empty ⟨Store.empty, []⟩
      "s" "g" "c" "p").2.2.2.2.2.1 (by decide)
  · exact (c6_delete_missing_is_not_found sampleStore ⟨sampleStore, []⟩
      "s" "g" "c" "p").2.2.2.2.2.2.2.2 (by decide) (by decide)

/-- C8: after a successful upsert through the ingestion endpoint, the store
holds the upsert's result, and the endpoint performs the targeted refresh
of the affected (collection, section) subtree exactly when that chapter key
is registered in the live UI — otherwise, and only otherwise, it falls back
to a full dashboard refresh. -/
theorem c8_targeted_refresh_with_fallback (cfg : String) (req : AddPlotRequest)
    (st : ServerState) (now : Nat) :
    (add_plot_endpoint cfg (some cfg) req st now).1.store =
      (add_plot st.store req.grimoire_name req.chapter_name req.plot_name
        req.json_data now).1 ∧
    (refresh_chapter_plots st.registry req.grimoire_name req.chapter_name =
        true →
      (add_plot_endpoint cfg (some cfg) req st now).2 =
        .ok (.chapterOnly req.grimoire_name req.chapter_name,
          (add_plot st.store req.grimoire_name req.chapter_name req.plot_name
            req.json_data now).2.name)) ∧
    (refresh_chapter_plots st.registry req.grimoire_name req.chapter_name =
        false →
      (add_plot_endpoint cfg (some cfg) req st now).2 =
        .ok (.fullDashboard,
          (add_plot st.store req.grimoire_name req.chapter_name req.plot_name
            req.json_data now).2.name)) := by
  refine ⟨?_, fun hreg => ?_, fun hreg => ?_⟩
  · simp [add_plot_endpoint, verify_secret]
  · simp [add_plot_endpoint, verify_secret, hreg]
  · simp [add_plot_endpoint, verify_secret, hreg]

/-- Witness for C8 at concrete inputs: with the chapter key absent from the
registry the endpoint reports a full dashboard refresh. -/
theorem c8_targeted_refresh_with_fallback_witness :
    (add_plot_endpoint "s" (some "s") ⟨"g", "c", "p", "d"⟩ ⟨Store.empty, []⟩
        0).1.store =
      (add_plot Store.empty "g" "c" "p" "d" 0).1 ∧
    (add_plot_endpoint "s" (some "s") ⟨"g", "c", "p", "d"⟩ ⟨Store.empty, []⟩
        0).2 = .ok (.fullDashboard, "p") := by
  have h := c8_targeted_refresh_with_fallback "s" ⟨"g", "c", "p", "d"⟩
    ⟨Store.empty, []⟩ 0
  exact ⟨h.1, by simpa using h.2.2 rfl⟩

/-- C9: a stored chart whose payload fails to parse as JSON is rendered as
the visible "Invalid plot data" placeholder in its place; the rest of the
chapter grid still renders, entry by entry, unaffected by the failing
chart. -/
theorem c9_invalid_json_renders_placeholder (parseOk : String → Bool)
    (s : Store) (g c : String) (plot : Plot)
    (hmem : plot ∈ get_plots_for_chapter s g c)
    (hbad : parseOk plot.json_data = false) :
    render_plot parseOk plot =
      .invalidData ("Invalid plot data: " ++ plot.name) ∧
    RenderedPlot.invalidData ("Invalid plot data: " ++ plot.name) ∈
      chapter_plots_ui parseOk s g c ∧
    (chapter_plots_ui parseOk s g c).length =
      (get_plots_for_chapter s g c).length ∧
    ∀ i : Nat, (chapter_plots_ui parseOk s g c)[i]? =
      ((get_plots_for_chapter s g c)[i]?).map (render_plot parseOk) := by
  have hrender : render_plot parseOk plot =
      .invalidData ("Invalid plot data: " ++ plot.name) := by
    simp [render_plot, hbad]
  refine ⟨hrender, ?_, List.length_map _ _, fun i => List.getElem?_map _ _ i⟩
  exact List.mem_map.mpr ⟨plot, hmem, hrender⟩

/-- Witness for C9 at concrete inputs: a parser that rejects everything
turns the sample store's chart into the placeholder label. -/
theorem c9_invalid_json_renders_placeholder_witness :
    render_plot (fun _ => false) ⟨"p", "c", "g", "d", 0⟩ =
      .invalidData ("Invalid plot data: " ++ "p") ∧
    RenderedPlot.invalidData ("Invalid plot data: " ++ "p") ∈
      chapter_plots_ui (fun _ => false) sampleStore "g" "c" ∧
    (chapter_plots_ui (fun _ => false) sampleStore "g" "c").length =
      (get_plots_for_chapter sampleStore "g" "c").length ∧
    ∀ i : Nat, (chapter_plots_ui (fun _ => false) sampleStore "g" "c")[i]? =
      ((get_plots_for_chapter sampleStore "g" "c")[i]?).map
        (render_plot (fun _ => false)) :=
  c9_invalid_json_renders_placeholder (fun _ => false) sampleStore "g" "c"
    ⟨"p", "c", "g", "d", 0⟩ (by decide) rfl

/-- Characterization of the retry loop from any starting attempt `a` with
enough fuel: the loop stops at some attempt between `a` and `max_retries`,
every earlier attempt raised a non-HTTP exception, it slept exactly the
exponential delays for those earlier attempts, the final outcome is the
last attempt's result, and only a final database error carries the loop all
the way to `max_retries`. -/
lemma retryGo_spec {α : Type} (f : Nat → CallResult α) (b : ℚ) (m : Nat) :
    ∀ fuel a, 1 ≤ a → a ≤ m → m < a + fuel →
      a ≤ (retryGo f b m a fuel).1 ∧
      (retryGo f b m a fuel).1 ≤ m ∧
      (∀ j, a ≤ j → j < (retryGo f b m a fuel).1 → f j = .exc) ∧
      (retryGo f b m a fuel).2.1 =
        (List.range' a ((retryGo f b m a fuel).1 - a)).map
          (fun j => b * 2 ^ (j - 1)) ∧
      (retryGo f b m a fuel).2.2 = f (retryGo f b m a fuel).1 ∧
      (f (retryGo f b m a fuel).1 = .exc → (retryGo f b m a fuel).1 = m) := by
  intro fuel
  induction fuel with
  | zero => intro a h1 h2 h3; omega
  | succ fuel ih =>
      intro a h1 h2 h3
      cases hfa : f a with
      | ok v =>
          have hstep : retryGo f b m a (fuel + 1) = (a, [], .ok v) := by
            simp only [retryGo, hfa]
          rw [hstep]
          exact ⟨le_refl a, h2, fun j hj hj2 => absurd hj (by omega),
            by simp, hfa.symm, fun hx => by rw [hfa] at hx; cases hx⟩
      | httpExc code =>
          have hstep : retryGo f b m a (fuel + 1) = (a, [], .httpExc code) := by
            simp only [retryGo, hfa]
          rw [hstep]
          exact ⟨le_refl a, h2, fun j hj hj2 => absurd hj (by omega),
            by simp, hfa.symm, fun hx => by rw [hfa] at hx; cases hx⟩
      | exc =>
          by_cases ham : a < m
          · obtain ⟨ih1, ih2, ih3, ih4, ih5, ih6⟩ :=
              ih (a + 1) (by omega) (by omega) (by omega)
            have hstep : retryGo f b m a (fuel + 1) =
                ((retryGo f b m (a + 1) fuel).1,
                 b * 2 ^ (a - 1) :: (retryGo f b m (a + 1) fuel).2.1,
                 (retryGo f b m (a + 1) fuel).2.2) := by
              simp only [retryGo, hfa, if_pos ham]
            rw [hstep]
            refine ⟨by omega, ih2, ?_, ?_, ih5, ih6⟩
            · intro j hj hj2
              rcases eq_or_lt_of_le hj with hje | hjl
              · rwa [← hje]
              · exact ih3 j (by omega) hj2
            · have hk : (retryGo f b m (a + 1) fuel).1 - a =
                  ((retryGo f b m (a + 1) fuel).1 - (a + 1)) + 1 := by omega
              rw [hk, List.range'_succ, List.map_cons, ← ih4]
          · have ham' : a = m := by omega
            have hstep : retryGo f b m a (fuel + 1) = (a, [], .exc) := by
              simp only [retryGo, hfa, if_neg ham]
            rw [hstep]
            exact ⟨le_refl a, h2, fun j hj hj2 => absurd hj (by omega),
              by simp, hfa.symm, fun _ => ham'⟩

/-- C7: the retry wrapper at its configured budget of 5 attempts. For every
wrapped behaviour `f` and base delay `b`, the produced trace `r` (last
attempt, slept delays, outcome) satisfies: at most 5 attempts are made;
every attempt before the last raised a non-HTTP exception and was followed
by a sleep of `b * 2 ^ (attempt - 1)` — the delay doubles each attempt;
the last attempt's result propagates (an HTTPException is therefore
re-raised at the attempt that raised it, never retried); and a database
error is propagated only once attempt 5 has been reached. -/
theorem c7_retry_budget_and_backoff {α : Type} (f : Nat → CallResult α)
    (b : ℚ) (r : Nat × List ℚ × CallResult α)
    (hr : retry_on_db_error f 5 b = some r) :
    1 ≤ r.1 ∧ r.1 ≤ 5 ∧
    (∀ j, 1 ≤ j → j < r.1 → f j = .exc) ∧
    r.2.1 = (List.range' 1 (r.1 - 1)).map (fun j => b * 2 ^ (j - 1)) ∧
    r.2.2 = f r.1 ∧
    (f r.1 = .exc → r.1 = 5) := by
  have hr' : r = retryGo f b 5 1 5 := by
    rw [retry_on_db_error, if_neg (by omega)] at hr
    exact (Option.some.injEq _ _ ▸ hr).symm
  subst hr'
  exact retryGo_spec f b 5 5 1 (by omega) (by omega) (by omega)

/-- Witness for C7 at a concrete input: a wrapped call that raises an
HTTPException on the first attempt is re-raised at once with no sleeps. -/
theorem c7_retry_budget_and_backoff_witness :
    retry_on_db_error (fun _ => CallResult.httpExc (α := Nat) 401) 5 1 =
      some (1, [], CallResult.httpExc 401) ∧
    1 ≤ (1 : Nat) ∧
    ((1, ([] : List ℚ), CallResult.httpExc (α := Nat) 401).2.2 =
      (fun _ => CallResult.httpExc (α := Nat) 401) 1) ∧
    ((1, ([] : List ℚ), CallResult.httpExc (α := Nat) 401).2.1 =
      (List.range' 1 (1 - 1)).map (fun j => (1 : ℚ) * 2 ^ (j - 1))) := by
  refine ⟨rfl, ?_, ?_, ?_⟩
  · exact (c7_retry_budget_and_backoff (α := Nat)
      (fun _ => CallResult.httpExc 401) 1 (1, [], CallResult.httpExc 401)
      rfl).1
  · exact (c7_retry_budget_and_backoff (α := Nat)
      (fun _ => CallResult.httpExc 401) 1 (1, [], CallResult.httpExc 401)
      rfl).2.2.2.2.1
  · exact (c7_retry_budget_and_backoff (α := Nat)
      (fun _ => CallResult.httpExc 401) 1 (1, [], CallResult.httpExc 401)
      rfl).2.2.2.1

end GrimoirePlot
